import Mathlib

/-!
Shallow embedding of `src/datafusion/functions-array/src/any.rs`, the
`array_any_value` scalar function of this repository: the type resolver
(`ArrayAnyValue::return_type`), the dispatch entry point
(`array_any_value_inner`) and the row-reduction kernel
(`general_array_any_value`), together with theorems settling the frozen
claims about them.

Machine details kept: Arrow list arrays are modelled as element type plus
offset buffer, validity buffer and flattened child array; a downcast that
panics in Rust is modelled as a distinguished `panicked` outcome, a
`DataFusionError` as a `failure` outcome carrying its kind.  Offset values
are `Nat` (the i32 / i64 width of the source only selects which downcast
succeeds, it never overflows on the inputs considered here), and strings
are modelled with the constant parts of the source messages.
-/

namespace ArrayAnyValue

/-- Arrow logical data types, restricted to the constructors the source
matches on (`DataType::List`, `LargeList`, `FixedSizeList`) plus two
representative non-list primitive types.  An Arrow `Field` is modelled by
the element `DataType` it carries, which is all `return_type` reads. -/
inductive DataType where
  | int64 : DataType
  | utf8 : DataType
  | list : DataType → DataType
  | largeList : DataType → DataType
  | fixedSizeList : DataType → Int → DataType
  deriving DecidableEq

/-- A model of a `dyn Array` value.  `listArr e offsets validity child`
models `GenericListArray<i32>` with element type `e`, offset buffer
`offsets` (length = row count + 1), per-row validity bitmap `validity`
and flattened child array `child`; `largeListArr` is the i64-offset
variant, `fixedSizeListArr` the fixed-size variant.  `int64Arr` and
`utf8Arr` stand for primitive (non-list) arrays with per-element
nullability. -/
inductive Arr where
  | int64Arr : List (Option Int) → Arr
  | utf8Arr : List (Option String) → Arr
  | listArr : DataType → List Nat → List Bool → Arr → Arr
  | largeListArr : DataType → List Nat → List Bool → Arr → Arr
  | fixedSizeListArr : DataType → Nat → List Bool → Arr → Arr
  deriving DecidableEq

/-- `Array::data_type()` of the model. -/
def Arr.dataType : Arr → DataType
  | Arr.int64Arr _ => DataType.int64
  | Arr.utf8Arr _ => DataType.utf8
  | Arr.listArr e _ _ _ => DataType.list e
  | Arr.largeListArr e _ _ _ => DataType.largeList e
  | Arr.fixedSizeListArr e n _ _ => DataType.fixedSizeList e (Int.ofNat n)

/-- `Array::len()` of the model: the number of rows. -/
def Arr.len : Arr → Nat
  | Arr.int64Arr vs => vs.length
  | Arr.utf8Arr vs => vs.length
  | Arr.listArr _ _ v _ => v.length
  | Arr.largeListArr _ _ v _ => v.length
  | Arr.fixedSizeListArr _ _ v _ => v.length

/-- `Array::slice(offset, length)`: a zero-copy window.  For list arrays the
offset values stay absolute into the shared child, exactly as in Arrow.
Only the constructor (the concrete Rust type) of the result matters to the
kernel, since the loop body of the source drops the row after downcasting. -/
def Arr.slice : Arr → Nat → Nat → Arr
  | Arr.int64Arr vs, off, len => Arr.int64Arr ((vs.drop off).take len)
  | Arr.utf8Arr vs, off, len => Arr.utf8Arr ((vs.drop off).take len)
  | Arr.listArr e offs v c, off, len =>
      Arr.listArr e ((offs.drop off).take (len + 1)) ((v.drop off).take len) c
  | Arr.largeListArr e offs v c, off, len =>
      Arr.largeListArr e ((offs.drop off).take (len + 1)) ((v.drop off).take len) c
  | Arr.fixedSizeListArr e n v c, off, len =>
      Arr.fixedSizeListArr e n ((v.drop off).take len) (c.slice (off * n) (len * n))

/-- The two error kinds of the source: `plan_err!` at type resolution,
`exec_err!` at execution, plus the `DataFusionError::Internal` produced by
the `as_list_array` downcast macro. -/
inductive ErrKind where
  | plan : ErrKind
  | execution : ErrKind
  | internal : ErrKind
  deriving DecidableEq

/-- Outcome of running kernel code: a returned array, a returned
`Err(DataFusionError)`, or a Rust panic (a failed `.expect` inside
`AsArray::as_list`). -/
inductive Outcome where
  | ok : Arr → Outcome
  | failure : ErrKind → String → Outcome
  | panicked : String → Outcome
  deriving DecidableEq

/-- The generic parameter `O: OffsetSizeTrait` of `general_array_any_value`:
i32 for `List`, i64 for `LargeList`. -/
inductive OffsetW where
  | i32 : OffsetW
  | i64 : OffsetW
  deriving DecidableEq

/-- How the body of one loop iteration can fail. -/
inductive RowFail where
  | panicF : String → RowFail
  | errF : String → RowFail
  deriving DecidableEq

/-- Message of the panic raised by `AsArray::as_list` when the dynamic
downcast of the row value to `GenericListArray<O>` fails. -/
def asListPanicMsg : String := "as_list downcast to a list array failed"

/-- Message of the `DataFusionError::Internal` raised by the
`as_list_array` cast (which always targets the i32 offset width). -/
def castListErrMsg : String := "could not cast value to arrow ListArray"

/-- `return_type` of `ArrayAnyValue` (applied to the first argument type):
`List(field) | LargeList(field) | FixedSizeList(field, _)` yield the field
element type unwrapped one level, anything else is a `plan_err!`. -/
def returnTypeErrMsg : String :=
  "ArrayElement can only accept List, LargeList or FixedSizeList as the first argument"

def return_type (t : DataType) : Except (ErrKind × String) DataType :=
  match t with
  | DataType.list e => Except.ok e
  | DataType.largeList e => Except.ok e
  | DataType.fixedSizeList e _ => Except.ok e
  | _ => Except.error (ErrKind.plan, returnTypeErrMsg)

/-- The non-null branch of the per-row loop of `general_array_any_value`:
`as_list_array(list_array_row.as_list::<O>())?`.  The first downcast
(`as_list`) panics unless the materialized row value is a list array of
offset width `O`; the second (`as_list_array`, always to i32 width)
returns an internal error when handed an i64 list.  On success the body
does nothing further — the scanning code of the source is commented out,
so no value is ever pushed for a non-null row. -/
def processRow (ow : OffsetW) (r : Arr) : Except RowFail Unit :=
  match ow, r with
  | OffsetW.i32, Arr.listArr _ _ _ _ => Except.ok ()
  | OffsetW.i64, Arr.largeListArr _ _ _ _ => Except.error (RowFail.errF castListErrMsg)
  | _, _ => Except.error (RowFail.panicF asListPanicMsg)

/-- `GenericListArray::iter()`: row `i` is `None` when the validity bit is
unset, otherwise the zero-copy slice of the shared child array delimited by
offsets `i` and `i + 1`. -/
def rowsOf (offsets : List Nat) (validity : List Bool) (child : Arr) : List (Option Arr) :=
  (List.range validity.length).map fun i =>
    if validity.getD i false then
      some (child.slice (offsets.getD i 0) (offsets.getD (i + 1) 0 - offsets.getD i 0))
    else none

/-- The `for (row_index, list_array_row) in list_array.iter().enumerate()`
loop: a null row pushes `None` onto `data`; a non-null row runs
`processRow` and — when that succeeds — pushes nothing. -/
def kernelLoop (ow : OffsetW) :
    List (Option Arr) → List (Option (List (Option Int))) →
    Except RowFail (List (Option (List (Option Int))))
  | [], acc => Except.ok acc.reverse
  | none :: rest, acc => kernelLoop ow rest (none :: acc)
  | some r :: rest, acc =>
      match processRow ow r with
      | Except.ok _ => kernelLoop ow rest acc
      | Except.error f => Except.error f

/-- Offset buffer built by `ListArray::from_iter_primitive`: cumulative
lengths starting at `acc`, a `None` entry contributing length zero. -/
def buildOffsets : Nat → List (Option (List (Option Int))) → List Nat
  | acc, [] => [acc]
  | acc, o :: rest => acc :: buildOffsets (acc + (o.getD []).length) rest

/-- `ListArray::from_iter_primitive::<Int64Type, _, _>(data)`: the output
array is always a list-of-int64 array, whatever the input element type. -/
def from_iter_primitive_int64 (data : List (Option (List (Option Int)))) : Arr :=
  Arr.listArr DataType.int64 (buildOffsets 0 data) (data.map Option.isSome)
    (Arr.int64Arr ((data.map (fun o => o.getD [])).flatten))

/-- `general_array_any_value::<O>` of the source, taking the fields of the
already-downcast `GenericListArray<O>` argument. -/
def general_array_any_value (ow : OffsetW) (offsets : List Nat) (validity : List Bool)
    (child : Arr) : Outcome :=
  match kernelLoop ow (rowsOf offsets validity child) [] with
  | Except.ok data => Outcome.ok (from_iter_primitive_int64 data)
  | Except.error (RowFail.panicF m) => Outcome.panicked m
  | Except.error (RowFail.errF m) => Outcome.failure ErrKind.internal m

/-- Debug rendering of a data type, standing for the Rust `{array_type:?}`
interpolation (quote marks of the source message omitted). -/
def DataType.debugStr : DataType → String
  | DataType.int64 => "Int64"
  | DataType.utf8 => "Utf8"
  | DataType.list e => "List(" ++ e.debugStr ++ ")"
  | DataType.largeList e => "LargeList(" ++ e.debugStr ++ ")"
  | DataType.fixedSizeList e n => "FixedSizeList(" ++ e.debugStr ++ ", " ++ toString n ++ ")"

def unsupportedTypeMsg (t : DataType) : String :=
  "array_any_value does not support type " ++ t.debugStr ++ "."

/-- `array_any_value_inner`: the arity check (`args.len() != 1`), then the
dispatch on `args[0].data_type()` — `List` runs the kernel at i32 offsets,
`LargeList` at i64 offsets, everything else is an `exec_err!`. -/
def array_any_value_inner (args : List Arr) : Outcome :=
  match args with
  | [Arr.listArr _ offsets validity child] =>
      general_array_any_value OffsetW.i32 offsets validity child
  | [Arr.largeListArr _ offsets validity child] =>
      general_array_any_value OffsetW.i64 offsets validity child
  | [a] => Outcome.failure ErrKind.execution (unsupportedTypeMsg a.dataType)
  | _ => Outcome.failure ErrKind.execution "array_any_value expects one argument"

/-- True exactly on the two representations the kernel dispatches to. -/
def Arr.isI32List : Arr → Bool
  | Arr.listArr _ _ _ _ => true
  | _ => false

def Arr.isI64List : Arr → Bool
  | Arr.largeListArr _ _ _ _ => true
  | _ => false

/-- True exactly on the three list-shaped type constructors. -/
def DataType.isListLike : DataType → Bool
  | DataType.list _ => true
  | DataType.largeList _ => true
  | DataType.fixedSizeList _ _ => true
  | _ => false

/-- The empty list-of-int64 array the kernel returns when `data` stays empty. -/
def emptyInt64ListArr : Arr := Arr.listArr DataType.int64 [0] [] (Arr.int64Arr [])

/-- A list-of-lists-of-int64 input with a single non-null row holding the
single non-null element `[7]`: offsets `[0, 1]`, validity `[true]`, child
rows `[[7]]`. -/
def c1Input : Arr :=
  Arr.listArr (DataType.list DataType.int64) [0, 1] [true]
    (Arr.listArr DataType.int64 [0, 1] [true] (Arr.int64Arr [some 7]))

/-- C1: the row-count invariant fails on the code.  The input below has one
row (non-null, with a non-null element), yet the kernel returns a zero-row
array: the non-null branch of the loop downcasts the row and then never
appends to `data`, so every non-null row is dropped from the output. -/
theorem c1_row_count_bug :
    c1Input.len = 1 ∧
    array_any_value_inner [c1Input] = Outcome.ok emptyInt64ListArr ∧
    emptyInt64ListArr.len = 0 := by
  decide

/-- A list-of-lists-of-int64 input with rows `[null, [[7]]]`. -/
def c2Input : Arr :=
  Arr.listArr (DataType.list DataType.int64) [0, 0, 1] [false, true]
    (Arr.listArr DataType.int64 [0, 1] [true] (Arr.int64Arr [some 7]))

/-- C2: the null-iff characterisation fails on the code.  Input row 1 below
is non-null and its segment holds a non-null element, so the claim requires
output row 1 to be non-null; the code instead drops every non-null row, and
the output consists of the single null row coming from input row 0 — output
row 1 does not exist at all. -/
theorem c2_null_iff_bug :
    c2Input.len = 2 ∧
    array_any_value_inner [c2Input] =
      Outcome.ok (Arr.listArr DataType.int64 [0, 0] [false] (Arr.int64Arr [])) := by
  decide

/-- A list-of-lists-of-int64 input with the single row `[null, [5]]`. -/
def c3Input : Arr :=
  Arr.listArr (DataType.list DataType.int64) [0, 2] [true]
    (Arr.listArr DataType.int64 [0, 0, 1] [false, true] (Arr.int64Arr [some 5]))

/-- C3: the first-non-null-copy rule fails on the code.  For the input below
the claim requires output row 0 to equal the child value at in-segment index
1 (the value `[5]`, the lowest-index non-null child); the scanning and
copying step of the source is commented out, so the kernel returns an empty
output array and no value is ever copied. -/
theorem c3_first_value_bug :
    array_any_value_inner [c3Input] = Outcome.ok emptyInt64ListArr ∧
    emptyInt64ListArr.len = 0 := by
  decide

/-- A list-of-utf8 input with a single null row. -/
def c4Input : Arr := Arr.listArr DataType.utf8 [0, 0] [false] (Arr.utf8Arr [])

/-- C4: the output element type fails on the code.  The input below has
element type utf8 (the type resolver advertises utf8), the kernel succeeds
on it, and yet the output array is built by
`ListArray::from_iter_primitive::<Int64Type, _, _>` — its data type is
list-of-int64, not the input element type. -/
theorem c4_output_type_bug :
    return_type (DataType.list DataType.utf8) = Except.ok DataType.utf8 ∧
    array_any_value_inner [c4Input] =
      Outcome.ok (Arr.listArr DataType.int64 [0, 0] [false] (Arr.int64Arr [])) ∧
    (Arr.listArr DataType.int64 [0, 0] [false] (Arr.int64Arr [])).dataType ≠
      DataType.utf8 := by
  refine ⟨rfl, by decide, by decide⟩

/-- C5: an argument slice whose length is not one is rejected up front with
the execution error of the source, and no output array is produced. -/
theorem c5_arity_error (args : List Arr) (h : args.length ≠ 1) :
    array_any_value_inner args =
      Outcome.failure ErrKind.execution "array_any_value expects one argument" := by
  rcases args with _ | ⟨a, _ | ⟨b, rest⟩⟩
  · rfl
  · exact absurd rfl h
  · cases a <;> rfl

/-- C5 witness: the arity error at the concrete empty argument slice. -/
theorem c5_arity_error_witness :
    ([] : List Arr).length ≠ 1 ∧
    array_any_value_inner [] =
      Outcome.failure ErrKind.execution "array_any_value expects one argument" :=
  ⟨by decide, c5_arity_error [] (by decide)⟩

/-- C6: the type resolver unwraps a variable list, a large variable list or
a fixed-size list exactly one level — returning the declared element type,
without recursing into nested list element types — and fails with a plan
error on every other type. -/
theorem c6_return_type_spec (t : DataType) :
    (∀ e, t = DataType.list e → return_type t = Except.ok e) ∧
    (∀ e, t = DataType.largeList e → return_type t = Except.ok e) ∧
    (∀ e n, t = DataType.fixedSizeList e n → return_type t = Except.ok e) ∧
    ((∀ e, t ≠ DataType.list e) → (∀ e, t ≠ DataType.largeList e) →
      (∀ e n, t ≠ DataType.fixedSizeList e n) →
      return_type t = Except.error (ErrKind.plan, returnTypeErrMsg)) := by
  refine ⟨fun e he => ?_, fun e he => ?_, fun e n he => ?_, fun h1 h2 h3 => ?_⟩
  · subst he; rfl
  · subst he; rfl
  · subst he; rfl
  · cases t with
    | int64 => rfl
    | utf8 => rfl
    | list e => exact absurd rfl (h1 e)
    | largeList e => exact absurd rfl (h2 e)
    | fixedSizeList e n => exact absurd rfl (h3 e n)

/-- C6 witness: a nested list type is unwrapped exactly one level (the
result is still a list), and a non-list type draws the plan error. -/
theorem c6_return_type_spec_witness :
    return_type (DataType.list (DataType.list DataType.int64)) =
      Except.ok (DataType.list DataType.int64) ∧
    return_type DataType.utf8 = Except.error (ErrKind.plan, returnTypeErrMsg) :=
  ⟨(c6_return_type_spec (DataType.list (DataType.list DataType.int64))).1
      (DataType.list DataType.int64) rfl,
    (c6_return_type_spec DataType.utf8).2.2.2
      (fun _ he => DataType.noConfusion he)
      (fun _ he => DataType.noConfusion he)
      (fun _ _ he => DataType.noConfusion he)⟩

/-- C7: a single argument whose concrete representation is neither an
i32-offset variable list nor an i64-offset large variable list is rejected
by the kernel entry point with the does-not-support-type execution error. -/
theorem c7_unsupported_type (a : Arr)
    (h1 : a.isI32List = false) (h2 : a.isI64List = false) :
    array_any_value_inner [a] =
      Outcome.failure ErrKind.execution (unsupportedTypeMsg a.dataType) := by
  cases a with
  | int64Arr vs => rfl
  | utf8Arr vs => rfl
  | listArr e o v c => exact Bool.noConfusion h1
  | largeListArr e o v c => exact Bool.noConfusion h2
  | fixedSizeListArr e n v c => rfl

/-- C7 witness: a fixed-size list draws the execution error from the kernel
entry point even though the type resolver accepts its type. -/
theorem c7_unsupported_type_witness :
    (Arr.fixedSizeListArr DataType.int64 2 [] (Arr.int64Arr [])).isI32List = false ∧
    (Arr.fixedSizeListArr DataType.int64 2 [] (Arr.int64Arr [])).isI64List = false ∧
    array_any_value_inner [Arr.fixedSizeListArr DataType.int64 2 [] (Arr.int64Arr [])] =
      Outcome.failure ErrKind.execution
        (unsupportedTypeMsg (DataType.fixedSizeList DataType.int64 2)) ∧
    return_type (DataType.fixedSizeList DataType.int64 2) = Except.ok DataType.int64 :=
  ⟨rfl, rfl, c7_unsupported_type _ rfl rfl, rfl⟩

/-- C9: the kernel entry point is a pure function of its argument list —
running it twice on the same input yields identical outcomes, consistent
with the immutable volatility classification. -/
theorem c9_deterministic (args : List Arr) (o1 o2 : Outcome)
    (h1 : array_any_value_inner args = o1)
    (h2 : array_any_value_inner args = o2) : o1 = o2 :=
  h1.symm.trans h2

/-- C9 witness: two runs on a concrete input produce the same outcome. -/
theorem c9_deterministic_witness :
    array_any_value_inner [Arr.int64Arr []] =
      Outcome.failure ErrKind.execution (unsupportedTypeMsg DataType.int64) ∧
    array_any_value_inner [Arr.int64Arr []] =
      Outcome.failure ErrKind.execution (unsupportedTypeMsg DataType.int64) ∧
    Outcome.failure ErrKind.execution (unsupportedTypeMsg DataType.int64) =
      Outcome.failure ErrKind.execution (unsupportedTypeMsg DataType.int64) :=
  ⟨rfl, rfl, c9_deterministic [Arr.int64Arr []] _ _ rfl rfl⟩

/-- C8 counterexample: on the zero-row list-of-utf8 input the kernel
succeeds and returns a zero-row output array, but that array has the
hardcoded data type list-of-int64, not the resolved element type utf8 —
so the claim, as stated, is false at this input. -/
theorem c8_counterexample :
    return_type (DataType.list DataType.utf8) = Except.ok DataType.utf8 ∧
    array_any_value_inner [Arr.listArr DataType.utf8 [0] [] (Arr.utf8Arr [])] =
      Outcome.ok emptyInt64ListArr ∧
    emptyInt64ListArr.dataType ≠ DataType.utf8 :=
  ⟨rfl, by decide, by decide⟩

/-- C8 (amended): for every zero-row input list array (either offset
width) the kernel raises no error and returns a zero-row output array —
built, however, as the hardcoded empty list-of-int64 array rather than at
the resolved element type. -/
theorem c8_empty_input_ok (a : Arr)
    (hl : a.isI32List = true ∨ a.isI64List = true) (hempty : a.len = 0) :
    array_any_value_inner [a] = Outcome.ok emptyInt64ListArr ∧
    emptyInt64ListArr.len = 0 := by
  refine ⟨?_, rfl⟩
  cases a with
  | int64Arr vs => rcases hl with h | h <;> exact Bool.noConfusion h
  | utf8Arr vs => rcases hl with h | h <;> exact Bool.noConfusion h
  | fixedSizeListArr e n v c => rcases hl with h | h <;> exact Bool.noConfusion h
  | listArr e o v c =>
    have hv : v = [] := List.length_eq_zero.mp hempty
    subst hv
    rfl
  | largeListArr e o v c =>
    have hv : v = [] := List.length_eq_zero.mp hempty
    subst hv
    rfl

/-- C8 witness: the amended statement at the concrete zero-row input. -/
theorem c8_empty_input_ok_witness :
    ((Arr.listArr DataType.utf8 [0] [] (Arr.utf8Arr [])).isI32List = true ∨
      (Arr.listArr DataType.utf8 [0] [] (Arr.utf8Arr [])).isI64List = true) ∧
    (Arr.listArr DataType.utf8 [0] [] (Arr.utf8Arr [])).len = 0 ∧
    (array_any_value_inner [Arr.listArr DataType.utf8 [0] [] (Arr.utf8Arr [])] =
        Outcome.ok emptyInt64ListArr ∧
      emptyInt64ListArr.len = 0) :=
  ⟨Or.inl rfl, rfl,
    c8_empty_input_ok (Arr.listArr DataType.utf8 [0] [] (Arr.utf8Arr [])) (Or.inl rfl) rfl⟩

lemma slice_dataType (a : Arr) (off len : Nat) :
    (a.slice off len).dataType = a.dataType := by
  cases a <;> rfl

/-- A row value whose data type is not list-shaped makes the loop body
panic at the `as_list` downcast, at either offset width. -/
lemma processRow_nonList (ow : OffsetW) (r : Arr)
    (h : r.dataType.isListLike = false) :
    processRow ow r = Except.error (RowFail.panicF asListPanicMsg) := by
  cases r with
  | int64Arr vs => cases ow <;> rfl
  | utf8Arr vs => cases ow <;> rfl
  | listArr e o v c => exact Bool.noConfusion h
  | largeListArr e o v c => exact Bool.noConfusion h
  | fixedSizeListArr e n v c => exact Bool.noConfusion h

/-- If every non-null row fails with `f` and some non-null row exists, the
whole loop fails with `f`. -/
lemma kernelLoop_error (ow : OffsetW) (f : RowFail) :
    ∀ (rows : List (Option Arr)) (acc : List (Option (List (Option Int)))),
      (∀ r, some r ∈ rows → processRow ow r = Except.error f) →
      (∃ r, some r ∈ rows) →
      kernelLoop ow rows acc = Except.error f := by
  intro rows
  induction rows with
  | nil =>
    intro acc _ hex
    rcases hex with ⟨r, hr⟩
    cases hr
  | cons hd tl ih =>
    intro acc hall hex
    cases hd with
    | none =>
      have hex2 : ∃ r, some r ∈ tl := by
        rcases hex with ⟨r, hr⟩
        cases hr with
        | tail _ h => exact ⟨r, h⟩
      have hstep : kernelLoop ow (none :: tl) acc = kernelLoop ow tl (none :: acc) := rfl
      rw [hstep]
      exact ih (none :: acc) (fun r hr => hall r (List.mem_cons_of_mem _ hr)) hex2
    | some r =>
      have hr : processRow ow r = Except.error f := hall r (List.mem_cons_self _ _)
      have hstep : kernelLoop ow (some r :: tl) acc =
          match processRow ow r with
          | Except.ok _ => kernelLoop ow tl acc
          | Except.error f2 => Except.error f2 := rfl
      rw [hstep, hr]

/-- Every element of the row iterator is either a null row or a slice of
the shared child array. -/
lemma rowsOf_mem (offsets : List Nat) (validity : List Bool) (child : Arr)
    (x : Option Arr) (hx : x ∈ rowsOf offsets validity child) :
    x = none ∨ ∃ o l, x = some (child.slice o l) := by
  rcases List.mem_map.mp hx with ⟨i, _, hfx⟩
  by_cases hv : validity.getD i false = true
  · right
    refine ⟨offsets.getD i 0, offsets.getD (i + 1) 0 - offsets.getD i 0, ?_⟩
    rw [← hfx, if_pos hv]
  · left
    rw [← hfx, if_neg hv]

/-- A set validity bit yields a non-null row in the iterator. -/
lemma rowsOf_exists_some (offsets : List Nat) (validity : List Bool) (child : Arr)
    (h : true ∈ validity) : ∃ r, some r ∈ rowsOf offsets validity child := by
  rcases List.mem_iff_get.mp h with ⟨⟨i, hi⟩, hget⟩
  have hv : validity.getD i false = true := by
    rw [List.getD_eq_getElem?_getD, List.getElem?_eq_getElem hi]
    simpa using hget
  refine ⟨child.slice (offsets.getD i 0) (offsets.getD (i + 1) 0 - offsets.getD i 0), ?_⟩
  exact List.mem_map.mpr ⟨i, List.mem_range.mpr hi, by rw [if_pos hv]⟩

/-- C10: the non-null branch of the loop downcasts the materialized row
value (`as_list` then `as_list_array`) before anything else, so whenever
the element type of the input list is not itself list-shaped (for example
a variable list of int64) and at least one row is non-null, the kernel
panics at the failed downcast instead of returning a value or an error —
at either offset width. -/
theorem c10_downcast_panics (elem : DataType) (offsets : List Nat)
    (validity : List Bool) (child : Arr)
    (hchild : child.dataType = elem) (helem : elem.isListLike = false)
    (hrow : true ∈ validity) :
    array_any_value_inner [Arr.listArr elem offsets validity child] =
      Outcome.panicked asListPanicMsg ∧
    array_any_value_inner [Arr.largeListArr elem offsets validity child] =
      Outcome.panicked asListPanicMsg := by
  have hall : ∀ (ow : OffsetW) r, some r ∈ rowsOf offsets validity child →
      processRow ow r = Except.error (RowFail.panicF asListPanicMsg) := by
    intro ow r hr
    rcases rowsOf_mem offsets validity child (some r) hr with h | ⟨o, l, h⟩
    · exact Option.noConfusion h
    · have hrw : r = child.slice o l := Option.some.inj h
      subst hrw
      exact processRow_nonList ow _ (by rw [slice_dataType, hchild]; exact helem)
  have hex : ∃ r, some r ∈ rowsOf offsets validity child :=
    rowsOf_exists_some offsets validity child hrow
  constructor
  · show general_array_any_value OffsetW.i32 offsets validity child = _
    unfold general_array_any_value
    rw [kernelLoop_error OffsetW.i32 (RowFail.panicF asListPanicMsg)
      (rowsOf offsets validity child) [] (hall OffsetW.i32) hex]
  · show general_array_any_value OffsetW.i64 offsets validity child = _
    unfold general_array_any_value
    rw [kernelLoop_error OffsetW.i64 (RowFail.panicF asListPanicMsg)
      (rowsOf offsets validity child) [] (hall OffsetW.i64) hex]

/-- C10 witness: a variable list of int64 with one non-null row makes the
kernel panic. -/
theorem c10_downcast_panics_witness :
    (Arr.int64Arr [some 5]).dataType = DataType.int64 ∧
    DataType.int64.isListLike = false ∧
    true ∈ [true] ∧
    array_any_value_inner
        [Arr.listArr DataType.int64 [0, 1] [true] (Arr.int64Arr [some 5])] =
      Outcome.panicked asListPanicMsg :=
  ⟨rfl, rfl, by decide,
    (c10_downcast_panics DataType.int64 [0, 1] [true] (Arr.int64Arr [some 5])
      rfl rfl (by decide)).1⟩

end ArrayAnyValue
